import Mathlib

/-!
# Grants of the twilio access token (`grant.go`)

A shallow embedding of `grant.go`: the five grant structs, their constructors,
and the two methods of the `Grant` interface, `Key` and `Payload`.

`Payload` returns a Go struct value whose fields carry `json:"name,omitempty"`
tags; what ends up in a token is the rendering of that value by
`encoding/json`.  The struct values are embedded as `GoValue` trees that keep
the tag of every field, and `marshal` follows the rules `encoding/json`
documents for them:

* a field tagged `omitempty` is left out when its value is empty: `false`, `0`,
  a nil interface, a string, slice or map of length `0`;
* a struct is never empty, and an interface holding any value is not nil;
* struct fields are written in declaration order, map entries in key order;
* a value of a kind the encoder does not support (a channel, a function, a
  complex number) makes the whole call fail;
* a string is written as valid UTF-8: every byte that does not start a valid
  encoding is replaced by U+FFFD, the rest is copied.

A Go string that comes in as an argument is a sequence of bytes, `GoString`; no
constructor checks it, so it need not be valid UTF-8.  The string constants of
the source (the section keys and the member names of the tags) are ASCII text
and are kept as `String`.  Go `int`s inside a parameter map are `Int`.
A Go map is embedded by the list of its entries in the order the encoder writes
them (ascending keys), each key as the text the encoder writes for it, with
`none` for the nil map.
-/

namespace TwilioGo

/-! ## Go strings -/

/-- Go `string`: a sequence of bytes. -/
abbrev GoString := List UInt8

/-- The Go string literal with text `s`: the bytes of its UTF-8 encoding. -/
def utf8 (s : String) : GoString :=
  s.data.flatMap String.utf8EncodeChar

/-- Lowest second byte `utf8.DecodeRune` accepts after the first byte `b0`. -/
def acceptLo (b0 : UInt8) : UInt8 :=
  if b0 = 0xE0 then 0xA0 else if b0 = 0xF0 then 0x90 else 0x80

/-- Highest second byte `utf8.DecodeRune` accepts after the first byte `b0`. -/
def acceptHi (b0 : UInt8) : UInt8 :=
  if b0 = 0xED then 0x9F else if b0 = 0xF4 then 0x8F else 0xBF

/-- Whether `b` is a continuation byte, `0x80` to `0xBF`. -/
def isCont (b : UInt8) : Bool := 0x80 ≤ b && b ≤ 0xBF

/-- Width `utf8.DecodeRune` reports for the rune at the head of a string, with
`0` where Go reports `RuneError` (a first byte that starts no valid encoding, a
wrong continuation byte or a string that ends too early). -/
def runeLen : GoString → Nat
  | [] => 0
  | b0 :: rest =>
    if b0 < 0x80 then 1
    else if b0 < 0xC2 then 0
    else if b0 < 0xE0 then
      match rest with
      | b1 :: _ => if isCont b1 then 2 else 0
      | _ => 0
    else if b0 < 0xF0 then
      match rest with
      | b1 :: b2 :: _ =>
        if acceptLo b0 ≤ b1 && b1 ≤ acceptHi b0 && isCont b2 then 3 else 0
      | _ => 0
    else if b0 < 0xF5 then
      match rest with
      | b1 :: b2 :: b3 :: _ =>
        if acceptLo b0 ≤ b1 && b1 ≤ acceptHi b0 && isCont b2 && isCont b3 then 4 else 0
      | _ => 0
    else 0

/-- UTF-8 encoding of U+FFFD, the replacement character. -/
def replacementChar : GoString := [0xEF, 0xBF, 0xBD]

/-- The string `encoding/json` writes for a Go string: valid runes are copied,
and a byte at which `utf8.DecodeRune` reports an error is replaced by U+FFFD,
after which decoding goes on at the next byte. -/
def toValidUTF8 : GoString → GoString
  | [] => []
  | b0 :: rest =>
    match runeLen (b0 :: rest), rest with
    | 1, r => b0 :: toValidUTF8 r
    | 2, b1 :: r => b0 :: b1 :: toValidUTF8 r
    | 3, b1 :: b2 :: r => b0 :: b1 :: b2 :: toValidUTF8 r
    | 4, b1 :: b2 :: b3 :: r => b0 :: b1 :: b2 :: b3 :: toValidUTF8 r
    | _, r => replacementChar ++ toValidUTF8 r

/-- Go `utf8.ValidString`: the string is a sequence of valid runes. -/
def ValidString : GoString → Bool
  | [] => true
  | b0 :: rest =>
    match runeLen (b0 :: rest), rest with
    | 1, r => ValidString r
    | 2, _ :: r => ValidString r
    | 3, _ :: _ :: r => ValidString r
    | 4, _ :: _ :: _ :: r => ValidString r
    | _, _ => false

/-! ## JSON documents -/

/-- JSON document as a tree; the members of an object are kept in the order
they are written, and a string is given by the UTF-8 bytes of its text. -/
inductive Json where
  | null
  | bool (b : Bool)
  | num (n : Int)
  | str (s : GoString)
  | arr (items : List Json)
  | obj (members : List (String × Json))

/-- Value of the member `k` of a JSON object, if there is one. -/
def Json.member (k : String) : Json → Option Json
  | .obj ms => (ms.find? (fun kv => kv.1 == k)).map Prod.snd
  | _ => none

/-- Names of the members of a JSON object, in order. -/
def Json.keys : Json → List String
  | .obj ms => ms.map Prod.fst
  | _ => []

/-- Whether a JSON document is an object. -/
def Json.isObject : Json → Bool
  | .obj _ => true
  | _ => false

/-! ## Go values as the JSON encoder sees them -/

/-- Field of a Go struct together with its `json` tag. -/
structure Field (α : Type) where
  /-- Member name given by the tag. -/
  name : String
  /-- Whether the tag carries `omitempty`. -/
  omitempty : Bool
  /-- The value stored in the field. -/
  value : α

/-- Go value, as far as `encoding/json` tells values apart. -/
inductive GoValue where
  /-- The nil `interface{}`. -/
  | nilIface
  /-- An `interface{}` holding a value. -/
  | iface (v : GoValue)
  | bool (b : Bool)
  | int (n : Int)
  | str (s : GoString)
  /-- A slice; `none` is the nil slice. -/
  | slice (xs : Option (List GoValue))
  /-- A map with string keys; `none` is the nil map. -/
  | map (m : Option (List (String × GoValue)))
  /-- A struct with tagged fields, in declaration order. -/
  | struct (fs : List (Field GoValue))
  /-- A value of a kind the encoder rejects, such as a channel. -/
  | chan

/-- The type `map[string]interface{}`: `none` is the nil map. -/
abbrev GoMap := Option (List (String × GoValue))

/-- Go `len` of a map; the nil map has length `0`. -/
def GoMap.len : GoMap → Nat
  | none => 0
  | some es => es.length

/-- The emptiness test `encoding/json` applies to a field tagged `omitempty`. -/
def isEmptyValue : GoValue → Bool
  | .nilIface => true
  | .iface _ => false
  | .bool b => !b
  | .int n => n == 0
  | .str s => s.length == 0
  | .slice none => true
  | .slice (some xs) => xs.length == 0
  | .map none => true
  | .map (some es) => es.length == 0
  | .struct _ => false
  | .chan => false

mutual
/-- `json.Marshal`, up to the text of the document: `none` is the error return. -/
def marshal : GoValue → Option Json
  | .nilIface => some .null
  | .iface v => marshal v
  | .bool b => some (.bool b)
  | .int n => some (.num n)
  | .str s => some (.str (toValidUTF8 s))
  | .slice none => some .null
  | .slice (some xs) => (marshalElems xs).map Json.arr
  | .map none => some .null
  | .map (some es) => (marshalEntries es).map Json.obj
  | .struct fs => (marshalFields fs).map Json.obj
  | .chan => none
/-- Elements of a slice, in order. -/
def marshalElems : List GoValue → Option (List Json)
  | [] => some []
  | x :: xs =>
    match marshal x with
    | none => none
    | some j => (marshalElems xs).map (j :: ·)
/-- Entries of a map, in order. -/
def marshalEntries : List (String × GoValue) → Option (List (String × Json))
  | [] => some []
  | (k, v) :: es =>
    match marshal v with
    | none => none
    | some j => (marshalEntries es).map ((k, j) :: ·)
/-- Fields of a struct, in order, leaving out the empty `omitempty` ones. -/
def marshalFields : List (Field GoValue) → Option (List (String × Json))
  | [] => some []
  | f :: fs =>
    if f.omitempty && isEmptyValue f.value then marshalFields fs
    else
      match marshal f.value with
      | none => none
      | some j => (marshalFields fs).map ((f.name, j) :: ·)
end

/-! ## The grants -/

/-- Go struct `voiceGrant`. -/
structure voiceGrant where
  allowIncoming : Bool
  outgoingApplicationSid : GoString
  outgoingApplicationParams : GoMap
  pushCredentialSid : GoString
  endpointID : GoString

/-- Go struct `chatGrant`. -/
structure chatGrant where
  serviceSid : GoString
  endpointID : GoString
  deploymentRoleSid : GoString
  pushCredentialSid : GoString

/-- Go struct `conversationGrant`. -/
structure conversationGrant where
  sid : GoString

/-- Go struct `videoGrant`. -/
structure videoGrant where
  room : GoString

/-- Go struct `ipMessagingGrant`. -/
structure ipMessagingGrant where
  serviceSid : GoString
  endpointID : GoString
  deploymentRoleSid : GoString
  pushCredentialSid : GoString

/-- Value of the interface type `Grant`: a pointer to one of the five structs
that implement it.  Every constructor of the package returns the address of a
composite literal, so the nil interface is not among the values. -/
inductive Grant where
  | voice (g : voiceGrant)
  | chat (g : chatGrant)
  | conversation (g : conversationGrant)
  | video (g : videoGrant)
  | ipMessaging (g : ipMessagingGrant)

/-- Go `NewVoiceGrant`. -/
def NewVoiceGrant (ApplicationSid PushCredentialSid EndpointID : GoString)
    (AllowIncoming : Bool) (ApplicationParams : GoMap) : Grant :=
  .voice
    { allowIncoming := AllowIncoming
      outgoingApplicationSid := ApplicationSid
      outgoingApplicationParams := ApplicationParams
      pushCredentialSid := PushCredentialSid
      endpointID := EndpointID }

/-- Go `(*voiceGrant).Key`. -/
def voiceGrant.Key (_g : voiceGrant) : String := "voice"

/-- Go `(*voiceGrant).Payload`. -/
def voiceGrant.Payload (g : voiceGrant) : GoValue :=
  .struct
    [ ⟨"incoming", true, .iface (.struct [⟨"allow", true, .bool g.allowIncoming⟩])⟩,
      ⟨"outgoing", true,
        .iface (.struct
          [ ⟨"application_sid", true, .str g.outgoingApplicationSid⟩,
            ⟨"params", true, .map g.outgoingApplicationParams⟩ ])⟩,
      ⟨"push_credential_sid", true, .str g.pushCredentialSid⟩,
      ⟨"endpoint_id", true, .str g.endpointID⟩ ]

/-- Go `NewChatGrant`. -/
def NewChatGrant (serviceSid endpointID deploymentRoleSid pushCredentialSid : GoString) :
    Grant :=
  .chat
    { serviceSid := serviceSid
      endpointID := endpointID
      deploymentRoleSid := deploymentRoleSid
      pushCredentialSid := pushCredentialSid }

/-- Go `(*chatGrant).Key`. -/
def chatGrant.Key (_g : chatGrant) : String := "chat"

/-- Go `(*chatGrant).Payload`. -/
def chatGrant.Payload (g : chatGrant) : GoValue :=
  .struct
    [ ⟨"service_sid", true, .str g.serviceSid⟩,
      ⟨"endpoint_id", true, .str g.endpointID⟩,
      ⟨"deployment_role_sid", true, .str g.deploymentRoleSid⟩,
      ⟨"push_credential_sid", true, .str g.pushCredentialSid⟩ ]

/-- Go `NewConversationGrant`. -/
def NewConversationGrant (sid : GoString) : Grant :=
  .conversation { sid := sid }

/-- Go `(*conversationGrant).Key`. -/
def conversationGrant.Key (_g : conversationGrant) : String := "rtc"

/-- Go `(*conversationGrant).Payload`. -/
def conversationGrant.Payload (g : conversationGrant) : GoValue :=
  .struct [⟨"configuration_profile_sid", true, .str g.sid⟩]

/-- Go `NewVideoGrant`. -/
def NewVideoGrant (room : GoString) : Grant :=
  .video { room := room }

/-- Go `(*videoGrant).Key`. -/
def videoGrant.Key (_g : videoGrant) : String := "video"

/-- Go `(*videoGrant).Payload`. -/
def videoGrant.Payload (g : videoGrant) : GoValue :=
  .struct [⟨"room", true, .str g.room⟩]

/-- Go `NewIPMessagingGrant`. -/
def NewIPMessagingGrant (serviceSid endpointID deploymentRoleSid pushCredentialSid : GoString) :
    Grant :=
  .ipMessaging
    { serviceSid := serviceSid
      endpointID := endpointID
      deploymentRoleSid := deploymentRoleSid
      pushCredentialSid := pushCredentialSid }

/-- Go `(*ipMessagingGrant).Key`. -/
def ipMessagingGrant.Key (_g : ipMessagingGrant) : String := "ip_messaging"

/-- Go `(*ipMessagingGrant).Payload`. -/
def ipMessagingGrant.Payload (g : ipMessagingGrant) : GoValue :=
  .struct
    [ ⟨"service_sid", true, .str g.serviceSid⟩,
      ⟨"endpoint_id", true, .str g.endpointID⟩,
      ⟨"deployment_role_sid", true, .str g.deploymentRoleSid⟩,
      ⟨"push_credential_sid", true, .str g.pushCredentialSid⟩ ]

/-- Method `Key` called through the interface. -/
def Grant.Key : Grant → String
  | .voice g => g.Key
  | .chat g => g.Key
  | .conversation g => g.Key
  | .video g => g.Key
  | .ipMessaging g => g.Key

/-- Method `Payload` called through the interface. -/
def Grant.Payload : Grant → GoValue
  | .voice g => g.Payload
  | .chat g => g.Payload
  | .conversation g => g.Payload
  | .video g => g.Payload
  | .ipMessaging g => g.Payload

/-- The serialized payload of a grant: `json.Marshal(g.Payload())`. -/
def Grant.serialized (g : Grant) : Option Json :=
  marshal g.Payload

/-- The five variants of a grant. -/
inductive Variant where
  | voice | chat | conversation | video | ipMessaging
  deriving DecidableEq, Repr

/-- Variant a grant value belongs to: the struct its pointer points to. -/
def Grant.variant : Grant → Variant
  | .voice _ => .voice
  | .chat _ => .chat
  | .conversation _ => .conversation
  | .video _ => .video
  | .ipMessaging _ => .ipMessaging

/-- A one-member list when `c` holds and the empty list otherwise: the members
an `omitempty` field contributes to its object. -/
def keep (c : Prop) [Decidable c] (k : String) (v : Json) : List (String × Json) :=
  if c then [(k, v)] else []

/-! ## Strings that are valid UTF-8 -/

/-- A string that is valid UTF-8 is written unchanged. -/
theorem toValidUTF8_of_valid (s : GoString) (h : ValidString s = true) : toValidUTF8 s = s := by
  induction s using toValidUTF8.induct with
  | case1 => rfl
  | case2 b0 r hr ih =>
    unfold ValidString at h
    unfold toValidUTF8
    simp only [hr] at h ⊢
    rw [ih h]
  | case3 b0 b1 r hr ih =>
    unfold ValidString at h
    unfold toValidUTF8
    simp only [hr] at h ⊢
    rw [ih h]
  | case4 b0 b1 b2 r hr ih =>
    unfold ValidString at h
    unfold toValidUTF8
    simp only [hr] at h ⊢
    rw [ih h]
  | case5 b0 b1 b2 b3 r hr ih =>
    unfold ValidString at h
    unfold toValidUTF8
    simp only [hr] at h ⊢
    rw [ih h]
  | case6 b0 rest h1 h2 h3 h4 ih =>
    exfalso
    unfold ValidString at h
    split at h
    · exact h1 ‹_›
    · exact h2 _ _ ‹_› rfl
    · exact h3 _ _ _ ‹_› rfl
    · exact h4 _ _ _ _ ‹_› rfl
    · exact Bool.false_ne_true h

/-! ## Section keys -/

/-- C1: whatever the constructor arguments, `Key()` of a grant made by
`NewVoiceGrant` is "voice", by `NewChatGrant` "chat", by `NewConversationGrant`
"rtc", by `NewVideoGrant` "video" and by `NewIPMessagingGrant` "ip_messaging". -/
theorem key_of_constructor (a p e : GoString) (i : Bool) (m : GoMap)
    (s1 s2 s3 s4 sid room t1 t2 t3 t4 : GoString) :
    (NewVoiceGrant a p e i m).Key = "voice" ∧
    (NewChatGrant s1 s2 s3 s4).Key = "chat" ∧
    (NewConversationGrant sid).Key = "rtc" ∧
    (NewVideoGrant room).Key = "video" ∧
    (NewIPMessagingGrant t1 t2 t3 t4).Key = "ip_messaging" :=
  ⟨rfl, rfl, rfl, rfl, rfl⟩

/-! ## The voice payload -/

/-- The voice payload cannot be serialized when the parameter map cannot. -/
theorem voice_serialized_none (a p e : GoString) (i : Bool) (m : GoMap)
    (h : marshal (.map m) = none) : (NewVoiceGrant a p e i m).serialized = none := by
  cases m with
  | none => simp [marshal] at h
  | some es =>
    cases es with
    | nil => simp [marshal, marshalEntries] at h
    | cons kv rest =>
      have h2 : marshalEntries (kv :: rest) = none := by simpa [marshal] using h
      cases i <;>
        simp [Grant.serialized, Grant.Payload, NewVoiceGrant, voiceGrant.Payload, marshal,
          marshalFields, isEmptyValue, h2]

/-- What the voice payload serializes to once the parameter map has the JSON
form `pj`; every string is written as `toValidUTF8` makes it. -/
theorem voice_serialized_some (a p e : GoString) (i : Bool) (m : GoMap) (pj : Json)
    (h : marshal (.map m) = some pj) :
    (NewVoiceGrant a p e i m).serialized =
      some (.obj
        ([ ("incoming", .obj (keep (i = true) "allow" (.bool true))),
           ("outgoing", .obj
              (keep (a ≠ []) "application_sid" (.str (toValidUTF8 a))
                ++ keep (m.len ≠ 0) "params" pj)) ]
          ++ keep (p ≠ []) "push_credential_sid" (.str (toValidUTF8 p))
          ++ keep (e ≠ []) "endpoint_id" (.str (toValidUTF8 e)))) := by
  cases m with
  | none =>
    cases i <;> by_cases ha : a = [] <;> by_cases hp : p = [] <;> by_cases he : e = [] <;>
      simp [Grant.serialized, Grant.Payload, NewVoiceGrant, voiceGrant.Payload, marshal,
        marshalFields, isEmptyValue, keep, GoMap.len, ha, hp, he]
  | some es =>
    cases es with
    | nil =>
      cases i <;> by_cases ha : a = [] <;> by_cases hp : p = [] <;> by_cases he : e = [] <;>
        simp [Grant.serialized, Grant.Payload, NewVoiceGrant, voiceGrant.Payload, marshal,
          marshalFields, isEmptyValue, keep, GoMap.len, ha, hp, he]
    | cons kv rest =>
      have h2 : (marshalEntries (kv :: rest)).map Json.obj = some pj := by
        simpa [marshal] using h
      cases h3 : marshalEntries (kv :: rest) with
      | none => simp [h3] at h2
      | some js =>
        have h4 : pj = .obj js := by simpa [h3] using h2.symm
        subst h4
        cases i <;> by_cases ha : a = [] <;> by_cases hp : p = [] <;> by_cases he : e = [] <;>
          simp [Grant.serialized, Grant.Payload, NewVoiceGrant, voiceGrant.Payload, marshal,
            marshalFields, isEmptyValue, keep, GoMap.len, ha, hp, he, h3]

/-- A map of length `0` is the nil map or the map without entries. -/
theorem GoMap.len_eq_zero (m : GoMap) (h : m.len = 0) : m = none ∨ m = some [] := by
  cases m with
  | none => exact Or.inl rfl
  | some es =>
    cases es with
    | nil => exact Or.inr rfl
    | cons kv rest => simp [GoMap.len] at h

/-- A map of length `0` is always accepted by the encoder. -/
theorem marshal_map_of_len_zero (m : GoMap) (h : m.len = 0) :
    ∃ pj, marshal (.map m) = some pj := by
  rcases GoMap.len_eq_zero m h with rfl | rfl
  · exact ⟨.null, by simp [marshal]⟩
  · exact ⟨.obj [], by simp [marshal, marshalEntries]⟩

/-- C2, as amended: whenever the encoder accepts the parameter map and renders
it as `pj`, and ApplicationSid, PushCredentialSid and EndpointID are valid
UTF-8, the serialized payload of `NewVoiceGrant` is exactly the object with
`incoming` (holding `allow: true` iff AllowIncoming), `outgoing` (holding
`application_sid` iff ApplicationSid is non-empty and `params` = `pj` iff the map
has an entry), `push_credential_sid` iff non-empty and `endpoint_id` iff
non-empty, and nothing else. -/
theorem NewVoiceGrant_serialized (a p e : GoString) (i : Bool) (m : GoMap) (pj : Json)
    (h : marshal (.map m) = some pj)
    (ha : ValidString a = true) (hp : ValidString p = true) (he : ValidString e = true) :
    (NewVoiceGrant a p e i m).serialized =
      some (.obj
        ([ ("incoming", .obj (keep (i = true) "allow" (.bool true))),
           ("outgoing", .obj
              (keep (a ≠ []) "application_sid" (.str a) ++ keep (m.len ≠ 0) "params" pj)) ]
          ++ keep (p ≠ []) "push_credential_sid" (.str p)
          ++ keep (e ≠ []) "endpoint_id" (.str e))) := by
  have hs := voice_serialized_some a p e i m pj h
  rw [toValidUTF8_of_valid a ha, toValidUTF8_of_valid p hp, toValidUTF8_of_valid e he] at hs
  exact hs

/-- C2 at two inputs: the grant of scenario B, `NewVoiceGrant("AP123", "", "",
false, nil)`, and a grant with every field set and a one-entry parameter map. -/
theorem NewVoiceGrant_serialized_witness :
    (marshal (.map none) = some .null ∧
      (ValidString (utf8 "AP123") = true ∧ ValidString [] = true) ∧
      (NewVoiceGrant (utf8 "AP123") [] [] false none).serialized =
        some (.obj
          [ ("incoming", .obj []),
            ("outgoing", .obj [("application_sid", .str (utf8 "AP123"))]) ])) ∧
    (marshal (.map (some [("to", .iface (.str (utf8 "bob")))])) =
        some (.obj [("to", .str (utf8 "bob"))]) ∧
      (ValidString (utf8 "CR9") = true ∧ ValidString (utf8 "dev-1") = true) ∧
      (NewVoiceGrant (utf8 "AP123") (utf8 "CR9") (utf8 "dev-1") true
          (some [("to", .iface (.str (utf8 "bob")))])).serialized =
        some (.obj
          [ ("incoming", .obj [("allow", .bool true)]),
            ("outgoing", .obj
              [ ("application_sid", .str (utf8 "AP123")),
                ("params", .obj [("to", .str (utf8 "bob"))]) ]),
            ("push_credential_sid", .str (utf8 "CR9")),
            ("endpoint_id", .str (utf8 "dev-1")) ])) :=
  ⟨⟨rfl, ⟨rfl, rfl⟩,
      NewVoiceGrant_serialized (utf8 "AP123") [] [] false none .null rfl rfl rfl rfl⟩,
   ⟨rfl, ⟨rfl, rfl⟩,
      NewVoiceGrant_serialized (utf8 "AP123") (utf8 "CR9") (utf8 "dev-1") true
        (some [("to", .iface (.str (utf8 "bob")))]) (.obj [("to", .str (utf8 "bob"))])
        rfl rfl rfl rfl⟩⟩

/-- C2 as stated fails twice over.  A parameter map holding a channel has no
serialized payload at all, `json.Marshal` returns an error.  And with the
ApplicationSid "\xff", one byte that is not valid UTF-8, the `application_sid`
member is U+FFFD and not the argument. -/
theorem NewVoiceGrant_not_as_claimed :
    (NewVoiceGrant (utf8 "AP123") [] [] false (some [("k", .iface .chan)])).serialized = none ∧
    (NewVoiceGrant [0xFF] [] [] false none).serialized =
      some (.obj
        [ ("incoming", .obj []),
          ("outgoing", .obj [("application_sid", .str [0xEF, 0xBF, 0xBD])]) ]) ∧
    (NewVoiceGrant [0xFF] [] [] false none).serialized ≠
      some (.obj
        [ ("incoming", .obj []),
          ("outgoing", .obj [("application_sid", .str [0xFF])]) ]) := by
  refine ⟨rfl, rfl, ?_⟩
  have h : (NewVoiceGrant [0xFF] [] [] false none).serialized =
      some (.obj
        [ ("incoming", .obj []),
          ("outgoing", .obj [("application_sid", .str [0xEF, 0xBF, 0xBD])]) ]) := rfl
  rw [h]
  simp

/-- C3, as amended: whenever the encoder accepts the parameter map, the
serialized voice payload exists and has both an `incoming` and an `outgoing`
member, each of them a JSON object, whatever the values of the fields. -/
theorem voice_containers_present (a p e : GoString) (i : Bool) (m : GoMap) (pj : Json)
    (h : marshal (.map m) = some pj) :
    ∃ j inc out, (NewVoiceGrant a p e i m).serialized = some j ∧
      j.member "incoming" = some (.obj inc) ∧ j.member "outgoing" = some (.obj out) := by
  refine ⟨_, keep (i = true) "allow" (.bool true),
    keep (a ≠ []) "application_sid" (.str (toValidUTF8 a)) ++ keep (m.len ≠ 0) "params" pj,
    voice_serialized_some a p e i m pj h, ?_, ?_⟩ <;>
    simp [Json.member]

/-- C3 at the grant built from all zero-valued arguments: both containers are
there and both are empty objects. -/
theorem voice_containers_present_witness :
    marshal (.map none) = some .null ∧
    ∃ j inc out, (NewVoiceGrant [] [] [] false none).serialized = some j ∧
      j.member "incoming" = some (.obj inc) ∧ j.member "outgoing" = some (.obj out) :=
  ⟨rfl, voice_containers_present [] [] [] false none .null rfl⟩

/-- C3 as stated fails: with a channel in the parameter map nothing is
serialized, so there is no payload to carry the two containers. -/
theorem voice_containers_absent_on_error :
    ¬ ∃ j, (NewVoiceGrant [] [] [] false (some [("cb", .iface .chan)])).serialized = some j := by
  have h : (NewVoiceGrant [] [] [] false (some [("cb", .iface .chan)])).serialized = none := rfl
  simp [h]

/-- C4: when ApplicationParams is nil or a map without entries, the serialized
payload exists and its `outgoing` object has no `params` member; two such grants
that agree on the other arguments serialize to the same payload. -/
theorem voice_params_omitted (a p e : GoString) (i : Bool) (m n : GoMap)
    (hm : m.len = 0) (hn : n.len = 0) :
    (∃ j out, (NewVoiceGrant a p e i m).serialized = some j ∧
      j.member "outgoing" = some (.obj out) ∧
      (Json.obj out).member "params" = none ∧ "params" ∉ (Json.obj out).keys) ∧
    (NewVoiceGrant a p e i m).serialized = (NewVoiceGrant a p e i n).serialized := by
  obtain ⟨pm, hpm⟩ := marshal_map_of_len_zero m hm
  obtain ⟨pn, hpn⟩ := marshal_map_of_len_zero n hn
  have em := voice_serialized_some a p e i m pm hpm
  have en := voice_serialized_some a p e i n pn hpn
  constructor
  · refine ⟨_, keep (a ≠ []) "application_sid" (.str (toValidUTF8 a))
        ++ keep (m.len ≠ 0) "params" pm,
      em, by simp [Json.member], ?_, ?_⟩ <;>
      by_cases ha : a = [] <;> simp [Json.member, Json.keys, keep, hm, ha]
  · rw [em, en]
    simp [keep, hm, hn]

/-- C4 at the nil map and the empty map. -/
theorem voice_params_omitted_witness :
    (GoMap.len none = 0 ∧ GoMap.len (some []) = 0) ∧
    ((∃ j out, (NewVoiceGrant (utf8 "AP123") [] [] true none).serialized = some j ∧
      j.member "outgoing" = some (.obj out) ∧
      (Json.obj out).member "params" = none ∧ "params" ∉ (Json.obj out).keys) ∧
    (NewVoiceGrant (utf8 "AP123") [] [] true none).serialized =
      (NewVoiceGrant (utf8 "AP123") [] [] true (some [])).serialized) :=
  ⟨⟨rfl, rfl⟩, voice_params_omitted (utf8 "AP123") [] [] true none (some []) rfl rfl⟩

/-! ## The flat payloads -/

/-- Serialized form of the chat payload, as a list of kept members; every string
is written as `toValidUTF8` makes it. -/
theorem chat_serialized_keep (s e d p : GoString) :
    (NewChatGrant s e d p).serialized =
      some (.obj
        (keep (s ≠ []) "service_sid" (.str (toValidUTF8 s))
          ++ keep (e ≠ []) "endpoint_id" (.str (toValidUTF8 e))
          ++ keep (d ≠ []) "deployment_role_sid" (.str (toValidUTF8 d))
          ++ keep (p ≠ []) "push_credential_sid" (.str (toValidUTF8 p)))) := by
  by_cases hs : s = [] <;> by_cases he : e = [] <;> by_cases hd : d = [] <;>
    by_cases hp : p = [] <;>
    simp [Grant.serialized, Grant.Payload, NewChatGrant, chatGrant.Payload, marshal,
      marshalFields, isEmptyValue, keep, hs, he, hd, hp]

/-- Serialized form of the IP-messaging payload, as a list of kept members;
every string is written as `toValidUTF8` makes it. -/
theorem ipMessaging_serialized_keep (s e d p : GoString) :
    (NewIPMessagingGrant s e d p).serialized =
      some (.obj
        (keep (s ≠ []) "service_sid" (.str (toValidUTF8 s))
          ++ keep (e ≠ []) "endpoint_id" (.str (toValidUTF8 e))
          ++ keep (d ≠ []) "deployment_role_sid" (.str (toValidUTF8 d))
          ++ keep (p ≠ []) "push_credential_sid" (.str (toValidUTF8 p)))) := by
  by_cases hs : s = [] <;> by_cases he : e = [] <;> by_cases hd : d = [] <;>
    by_cases hp : p = [] <;>
    simp [Grant.serialized, Grant.Payload, NewIPMessagingGrant, ipMessagingGrant.Payload,
      marshal, marshalFields, isEmptyValue, keep, hs, he, hd, hp]

/-- Serialized form of the video payload. -/
theorem video_serialized_keep (s : GoString) :
    (NewVideoGrant s).serialized =
      some (.obj (if s = [] then [] else [("room", .str (toValidUTF8 s))])) := by
  by_cases hs : s = [] <;>
    simp [Grant.serialized, Grant.Payload, NewVideoGrant, videoGrant.Payload, marshal,
      marshalFields, isEmptyValue, hs]

/-- Serialized form of the conversation payload. -/
theorem conversation_serialized_keep (s : GoString) :
    (NewConversationGrant s).serialized =
      some (.obj
        (if s = [] then [] else [("configuration_profile_sid", .str (toValidUTF8 s))])) := by
  by_cases hs : s = [] <;>
    simp [Grant.serialized, Grant.Payload, NewConversationGrant, conversationGrant.Payload,
      marshal, marshalFields, isEmptyValue, hs]

/-- C5, as amended: for four strings that are valid UTF-8, the serialized
payload of `NewChatGrant` is exactly the object that maps `service_sid`,
`endpoint_id`, `deployment_role_sid` and `push_credential_sid` to the four
arguments, each member kept iff its string is non-empty. -/
theorem NewChatGrant_serialized (s e d p : GoString)
    (hs : ValidString s = true) (he : ValidString e = true)
    (hd : ValidString d = true) (hp : ValidString p = true) :
    (NewChatGrant s e d p).serialized =
      some (.obj
        (keep (s ≠ []) "service_sid" (.str s) ++ keep (e ≠ []) "endpoint_id" (.str e)
          ++ keep (d ≠ []) "deployment_role_sid" (.str d)
          ++ keep (p ≠ []) "push_credential_sid" (.str p))) := by
  have h := chat_serialized_keep s e d p
  rw [toValidUTF8_of_valid s hs, toValidUTF8_of_valid e he, toValidUTF8_of_valid d hd,
    toValidUTF8_of_valid p hp] at h
  exact h

/-- C5 at the grant of scenario C, `NewChatGrant("IS1", "endpoint-7", "RL1",
"CR1")`: all four members are there. -/
theorem NewChatGrant_serialized_witness :
    (ValidString (utf8 "IS1") = true ∧ ValidString (utf8 "endpoint-7") = true ∧
      ValidString (utf8 "RL1") = true ∧ ValidString (utf8 "CR1") = true) ∧
    (NewChatGrant (utf8 "IS1") (utf8 "endpoint-7") (utf8 "RL1") (utf8 "CR1")).serialized =
      some (.obj
        [ ("service_sid", .str (utf8 "IS1")), ("endpoint_id", .str (utf8 "endpoint-7")),
          ("deployment_role_sid", .str (utf8 "RL1")),
          ("push_credential_sid", .str (utf8 "CR1")) ]) :=
  ⟨⟨rfl, rfl, rfl, rfl⟩,
    NewChatGrant_serialized (utf8 "IS1") (utf8 "endpoint-7") (utf8 "RL1") (utf8 "CR1")
      rfl rfl rfl rfl⟩

/-- C5 as stated fails: `NewChatGrant("\xff", "a\xffb", "", "")` serializes
with `service_sid` U+FFFD and `endpoint_id` "a", U+FFFD, "b", not with the
arguments. -/
theorem NewChatGrant_invalid_utf8_rewritten :
    (NewChatGrant [0xFF] [0x61, 0xFF, 0x62] [] []).serialized =
      some (.obj
        [ ("service_sid", .str [0xEF, 0xBF, 0xBD]),
          ("endpoint_id", .str [0x61, 0xEF, 0xBF, 0xBD, 0x62]) ]) ∧
    (NewChatGrant [0xFF] [0x61, 0xFF, 0x62] [] []).serialized ≠
      some (.obj
        [ ("service_sid", .str [0xFF]), ("endpoint_id", .str [0x61, 0xFF, 0x62]) ]) := by
  have h : (NewChatGrant [0xFF] [0x61, 0xFF, 0x62] [] []).serialized =
      some (.obj
        [ ("service_sid", .str [0xEF, 0xBF, 0xBD]),
          ("endpoint_id", .str [0x61, 0xEF, 0xBF, 0xBD, 0x62]) ]) := rfl
  refine ⟨h, ?_⟩
  rw [h]
  simp

/-- C6, as amended: for four strings that are valid UTF-8, the serialized
payload of `NewIPMessagingGrant` is exactly the object that maps `service_sid`,
`endpoint_id`, `deployment_role_sid` and `push_credential_sid` to the four
arguments, each member kept iff its string is non-empty. -/
theorem NewIPMessagingGrant_serialized (s e d p : GoString)
    (hs : ValidString s = true) (he : ValidString e = true)
    (hd : ValidString d = true) (hp : ValidString p = true) :
    (NewIPMessagingGrant s e d p).serialized =
      some (.obj
        (keep (s ≠ []) "service_sid" (.str s) ++ keep (e ≠ []) "endpoint_id" (.str e)
          ++ keep (d ≠ []) "deployment_role_sid" (.str d)
          ++ keep (p ≠ []) "push_credential_sid" (.str p))) := by
  have h := ipMessaging_serialized_keep s e d p
  rw [toValidUTF8_of_valid s hs, toValidUTF8_of_valid e he, toValidUTF8_of_valid d hd,
    toValidUTF8_of_valid p hp] at h
  exact h

/-- C6 at a grant with two strings set and two empty. -/
theorem NewIPMessagingGrant_serialized_witness :
    (ValidString (utf8 "IS2") = true ∧ ValidString [] = true ∧
      ValidString (utf8 "RL2") = true ∧ ValidString [] = true) ∧
    (NewIPMessagingGrant (utf8 "IS2") [] (utf8 "RL2") []).serialized =
      some (.obj
        [ ("service_sid", .str (utf8 "IS2")), ("deployment_role_sid", .str (utf8 "RL2")) ]) :=
  ⟨⟨rfl, rfl, rfl, rfl⟩,
    NewIPMessagingGrant_serialized (utf8 "IS2") [] (utf8 "RL2") [] rfl rfl rfl rfl⟩

/-- C6 as stated fails: with the push credential SID "\xc3(", a two-byte lead
followed by a byte that is no continuation, `push_credential_sid` is U+FFFD
followed by "(" and not the argument. -/
theorem NewIPMessagingGrant_invalid_utf8_rewritten :
    (NewIPMessagingGrant [] [] [] [0xC3, 0x28]).serialized =
      some (.obj [("push_credential_sid", .str [0xEF, 0xBF, 0xBD, 0x28])]) ∧
    (NewIPMessagingGrant [] [] [] [0xC3, 0x28]).serialized ≠
      some (.obj [("push_credential_sid", .str [0xC3, 0x28])]) := by
  have h : (NewIPMessagingGrant [] [] [] [0xC3, 0x28]).serialized =
      some (.obj [("push_credential_sid", .str [0xEF, 0xBF, 0xBD, 0x28])]) := rfl
  refine ⟨h, ?_⟩
  rw [h]
  simp

/-- C7, as amended: for a string s that is valid UTF-8, the serialized payload
of `NewVideoGrant(s)` is the object with the one member `room` = s when s is
non-empty and the empty object otherwise, and that of `NewConversationGrant(s)`
is the object with the one member `configuration_profile_sid` = s when s is
non-empty and the empty object otherwise. -/
theorem NewVideoGrant_NewConversationGrant_serialized (s : GoString)
    (hs : ValidString s = true) :
    (NewVideoGrant s).serialized =
      some (.obj (if s = [] then [] else [("room", .str s)])) ∧
    (NewConversationGrant s).serialized =
      some (.obj (if s = [] then [] else [("configuration_profile_sid", .str s)])) := by
  have hv := video_serialized_keep s
  have hc := conversation_serialized_keep s
  rw [toValidUTF8_of_valid s hs] at hv hc
  exact ⟨hv, hc⟩

/-- C7 at "room-42": `NewVideoGrant("room-42")` serializes to the object with
`room` = "room-42". -/
theorem NewVideoGrant_NewConversationGrant_serialized_witness :
    ValidString (utf8 "room-42") = true ∧
    ((NewVideoGrant (utf8 "room-42")).serialized =
      some (.obj [("room", .str (utf8 "room-42"))]) ∧
    (NewConversationGrant (utf8 "room-42")).serialized =
      some (.obj [("configuration_profile_sid", .str (utf8 "room-42"))])) :=
  ⟨rfl, NewVideoGrant_NewConversationGrant_serialized (utf8 "room-42") rfl⟩

/-- C7 as stated fails: `NewVideoGrant("\xff")` serializes with `room` U+FFFD,
and `NewConversationGrant("\xff")` likewise, not with the argument. -/
theorem NewVideoGrant_invalid_utf8_rewritten :
    (NewVideoGrant [0xFF]).serialized = some (.obj [("room", .str [0xEF, 0xBF, 0xBD])]) ∧
    (NewVideoGrant [0xFF]).serialized ≠ some (.obj [("room", .str [0xFF])]) ∧
    (NewConversationGrant [0xFF]).serialized =
      some (.obj [("configuration_profile_sid", .str [0xEF, 0xBF, 0xBD])]) ∧
    (NewConversationGrant [0xFF]).serialized ≠
      some (.obj [("configuration_profile_sid", .str [0xFF])]) := by
  have h : (NewVideoGrant [0xFF]).serialized =
      some (.obj [("room", .str [0xEF, 0xBF, 0xBD])]) := rfl
  have h2 : (NewConversationGrant [0xFF]).serialized =
      some (.obj [("configuration_profile_sid", .str [0xEF, 0xBF, 0xBD])]) := rfl
  refine ⟨h, ?_, h2, ?_⟩
  · rw [h]
    simp
  · rw [h2]
    simp

/-- C8: built from all zero-valued arguments, the chat, conversation, video and
IP-messaging grants serialize to the empty object and the voice grant to the
object whose only members are `incoming` and `outgoing`, both empty objects. -/
theorem zero_grants_serialized :
    (NewChatGrant [] [] [] []).serialized = some (.obj []) ∧
    (NewConversationGrant []).serialized = some (.obj []) ∧
    (NewVideoGrant []).serialized = some (.obj []) ∧
    (NewIPMessagingGrant [] [] [] []).serialized = some (.obj []) ∧
    (NewVoiceGrant [] [] [] false none).serialized =
      some (.obj [("incoming", .obj []), ("outgoing", .obj [])]) :=
  ⟨rfl, rfl, rfl, rfl, rfl⟩

/-! ## Construction -/

/-- C9: every constructor returns a grant of its own variant, for all
arguments, and the grant stores each argument unchanged in the field named for
it. -/
theorem constructors_store_arguments (a p e : GoString) (i : Bool) (m : GoMap)
    (s1 s2 s3 s4 sid room t1 t2 t3 t4 : GoString) :
    (∃ g, NewVoiceGrant a p e i m = .voice g ∧ g.outgoingApplicationSid = a ∧
      g.pushCredentialSid = p ∧ g.endpointID = e ∧ g.allowIncoming = i ∧
      g.outgoingApplicationParams = m) ∧
    (∃ g, NewChatGrant s1 s2 s3 s4 = .chat g ∧ g.serviceSid = s1 ∧ g.endpointID = s2 ∧
      g.deploymentRoleSid = s3 ∧ g.pushCredentialSid = s4) ∧
    (∃ g, NewConversationGrant sid = .conversation g ∧ g.sid = sid) ∧
    (∃ g, NewVideoGrant room = .video g ∧ g.room = room) ∧
    (∃ g, NewIPMessagingGrant t1 t2 t3 t4 = .ipMessaging g ∧ g.serviceSid = t1 ∧
      g.endpointID = t2 ∧ g.deploymentRoleSid = t3 ∧ g.pushCredentialSid = t4) :=
  ⟨⟨_, rfl, rfl, rfl, rfl, rfl, rfl⟩, ⟨_, rfl, rfl, rfl, rfl, rfl⟩, ⟨_, rfl, rfl⟩,
    ⟨_, rfl, rfl⟩, ⟨_, rfl, rfl, rfl, rfl, rfl⟩⟩

/-- C10: the section keys of grants built by the five constructors are
pairwise distinct, whatever the arguments, and two grants have the same section
key iff they are of the same variant. -/
theorem keys_pairwise_distinct (a p e : GoString) (i : Bool) (m : GoMap)
    (s1 s2 s3 s4 sid room t1 t2 t3 t4 : GoString) (g h : Grant) :
    List.Pairwise (fun x y => x ≠ y)
      [ (NewVoiceGrant a p e i m).Key, (NewChatGrant s1 s2 s3 s4).Key,
        (NewConversationGrant sid).Key, (NewVideoGrant room).Key,
        (NewIPMessagingGrant t1 t2 t3 t4).Key ] ∧
    (g.Key = h.Key ↔ g.variant = h.variant) := by
  constructor
  · simp [Grant.Key, NewVoiceGrant, NewChatGrant, NewConversationGrant, NewVideoGrant,
      NewIPMessagingGrant, voiceGrant.Key, chatGrant.Key, conversationGrant.Key,
      videoGrant.Key, ipMessagingGrant.Key]
  · cases g <;> cases h <;>
      simp [Grant.Key, Grant.variant, voiceGrant.Key, chatGrant.Key, conversationGrant.Key,
        videoGrant.Key, ipMessagingGrant.Key]

/-! ## Field omission and what the payload still tells -/

/-- A kept string member in front of a list whose first member, if any, has
another name determines the string and the rest of the list. -/
theorem keep_str_append_inj (k : String) (x y : GoString) (L M : List (String × Json))
    (hL : ∀ kv, L.head? = some kv → kv.1 ≠ k) (hM : ∀ kv, M.head? = some kv → kv.1 ≠ k)
    (h : keep (x ≠ []) k (.str x) ++ L = keep (y ≠ []) k (.str y) ++ M) :
    x = y ∧ L = M := by
  by_cases hx : x = [] <;> by_cases hy : y = []
  · subst hx; subst hy
    simpa [keep] using h
  · subst hx
    simp only [keep, hy, ne_eq, not_true_eq_false, not_false_eq_true, if_true, if_false,
      List.nil_append, List.singleton_append] at h
    exact absurd rfl (hL (k, .str y) (by rw [h]; rfl))
  · subst hy
    simp only [keep, hx, ne_eq, not_true_eq_false, not_false_eq_true, if_true, if_false,
      List.nil_append, List.singleton_append] at h
    exact absurd rfl (hM (k, .str x) (by rw [← h]; rfl))
  · simpa [keep, hx, hy] using h

/-- The four members of a chat or IP-messaging payload determine the four
strings, when they are written unchanged. -/
theorem flat_members_inj (s e d p s' e' d' p' : GoString)
    (h : keep (s ≠ []) "service_sid" (.str s) ++ keep (e ≠ []) "endpoint_id" (.str e)
          ++ keep (d ≠ []) "deployment_role_sid" (.str d)
          ++ keep (p ≠ []) "push_credential_sid" (.str p) =
        keep (s' ≠ []) "service_sid" (.str s') ++ keep (e' ≠ []) "endpoint_id" (.str e')
          ++ keep (d' ≠ []) "deployment_role_sid" (.str d')
          ++ keep (p' ≠ []) "push_credential_sid" (.str p')) :
    s = s' ∧ e = e' ∧ d = d' ∧ p = p' := by
  simp only [List.append_assoc] at h
  obtain ⟨hs, h⟩ := keep_str_append_inj "service_sid" s s' _ _
    (by
      intro kv hkv
      by_cases he : e = [] <;> by_cases hd : d = [] <;> by_cases hp : p = [] <;>
        simp [keep, he, hd, hp] at hkv <;> simp [← hkv])
    (by
      intro kv hkv
      by_cases he : e' = [] <;> by_cases hd : d' = [] <;> by_cases hp : p' = [] <;>
        simp [keep, he, hd, hp] at hkv <;> simp [← hkv])
    h
  obtain ⟨he, h⟩ := keep_str_append_inj "endpoint_id" e e' _ _
    (by
      intro kv hkv
      by_cases hd : d = [] <;> by_cases hp : p = [] <;>
        simp [keep, hd, hp] at hkv <;> simp [← hkv])
    (by
      intro kv hkv
      by_cases hd : d' = [] <;> by_cases hp : p' = [] <;>
        simp [keep, hd, hp] at hkv <;> simp [← hkv])
    h
  obtain ⟨hd, h⟩ := keep_str_append_inj "deployment_role_sid" d d' _ _
    (by
      intro kv hkv
      by_cases hp : p = [] <;> simp [keep, hp] at hkv
      simp [← hkv])
    (by
      intro kv hkv
      by_cases hp : p' = [] <;> simp [keep, hp] at hkv
      simp [← hkv])
    h
  have h0 : keep (p ≠ []) "push_credential_sid" (.str p) ++ [] =
      keep (p' ≠ []) "push_credential_sid" (.str p') ++ [] := by simpa using h
  obtain ⟨hp, _⟩ := keep_str_append_inj "push_credential_sid" p p' [] []
    (by simp) (by simp) h0
  exact ⟨hs, he, hd, hp⟩

/-- Two voice grants with valid UTF-8 strings that serialize to the same
existing payload agree on the application SID, the push credential SID, the
endpoint ID and the incoming flag. -/
theorem voice_serialized_inj (a p e a' p' e' : GoString) (i i' : Bool) (m m' : GoMap)
    (j : Json)
    (ha : ValidString a = true) (hp : ValidString p = true) (he : ValidString e = true)
    (ha' : ValidString a' = true) (hp' : ValidString p' = true) (he' : ValidString e' = true)
    (h1 : (NewVoiceGrant a p e i m).serialized = some j)
    (h2 : (NewVoiceGrant a' p' e' i' m').serialized = some j) :
    a = a' ∧ p = p' ∧ e = e' ∧ i = i' := by
  cases hm : marshal (.map m) with
  | none => rw [voice_serialized_none a p e i m hm] at h1; cases h1
  | some pj =>
    cases hm' : marshal (.map m') with
    | none => rw [voice_serialized_none a' p' e' i' m' hm'] at h2; cases h2
    | some pj' =>
      rw [voice_serialized_some a p e i m pj hm, toValidUTF8_of_valid a ha,
        toValidUTF8_of_valid p hp, toValidUTF8_of_valid e he] at h1
      rw [voice_serialized_some a' p' e' i' m' pj' hm', toValidUTF8_of_valid a' ha',
        toValidUTF8_of_valid p' hp', toValidUTF8_of_valid e' he', ← h1] at h2
      simp only [List.append_assoc, List.cons_append, List.nil_append, Option.some.injEq,
        Json.obj.injEq, List.cons.injEq, Prod.mk.injEq, true_and] at h2
      obtain ⟨hinc, hout, htail⟩ := h2
      have hi : i = i' := by
        cases i <;> cases i' <;> simp [keep] at hinc <;> rfl
      obtain ⟨hsid, _⟩ := keep_str_append_inj "application_sid" a' a _ _
        (by
          intro kv hkv
          by_cases hc : m'.len ≠ 0 <;> simp [keep, hc] at hkv
          simp [← hkv])
        (by
          intro kv hkv
          by_cases hc : m.len ≠ 0 <;> simp [keep, hc] at hkv
          simp [← hkv])
        hout
      obtain ⟨hpc, htail⟩ := keep_str_append_inj "push_credential_sid" p' p _ _
        (by
          intro kv hkv
          by_cases hc : e' = [] <;> simp [keep, hc] at hkv
          simp [← hkv])
        (by
          intro kv hkv
          by_cases hc : e = [] <;> simp [keep, hc] at hkv
          simp [← hkv])
        htail
      have h0 : keep (e' ≠ []) "endpoint_id" (.str e') ++ [] =
          keep (e ≠ []) "endpoint_id" (.str e) ++ [] := by simpa using htail
      obtain ⟨hep, _⟩ := keep_str_append_inj "endpoint_id" e' e [] [] (by simp) (by simp) h0
      exact ⟨hsid.symm, hpc.symm, hep.symm, hi⟩

/-- C11: for every four strings, `NewChatGrant` and `NewIPMessagingGrant` return
the same payload value and it serializes to the same existing JSON object; the
two grants differ in their keys, "chat" and "ip_messaging". -/
theorem chat_ipMessaging_same_payload (a b c d : GoString) :
    (∃ j, (NewChatGrant a b c d).serialized = some j ∧
      (NewIPMessagingGrant a b c d).serialized = some j) ∧
    (NewChatGrant a b c d).Payload = (NewIPMessagingGrant a b c d).Payload ∧
    (NewChatGrant a b c d).Key = "chat" ∧
    (NewIPMessagingGrant a b c d).Key = "ip_messaging" ∧
    (NewChatGrant a b c d).Key ≠ (NewIPMessagingGrant a b c d).Key := by
  refine ⟨⟨_, chat_serialized_keep a b c d, ipMessaging_serialized_keep a b c d⟩, rfl, rfl, rfl, ?_⟩
  simp [Grant.Key, NewChatGrant, NewIPMessagingGrant, chatGrant.Key, ipMessagingGrant.Key]

/-- C12, as amended: when all the argument strings are valid UTF-8, two chat
grants serialize to the same payload iff they were built from the same four
strings, and likewise two IP-messaging grants, two video grants and two
conversation grants; and two voice grants whose serialized payloads exist and
are equal have the same ApplicationSid, PushCredentialSid, EndpointID and
AllowIncoming. -/
theorem payload_determines_arguments (s e d p s' e' d' p' r r' : GoString)
    (a pc ep a' pc' ep' : GoString) (i i' : Bool) (m m' : GoMap)
    (hv : ∀ x ∈ [s, e, d, p, s', e', d', p', r, r', a, pc, ep, a', pc', ep'],
      ValidString x = true) :
    ((NewChatGrant s e d p).serialized = (NewChatGrant s' e' d' p').serialized ↔
      s = s' ∧ e = e' ∧ d = d' ∧ p = p') ∧
    ((NewIPMessagingGrant s e d p).serialized = (NewIPMessagingGrant s' e' d' p').serialized ↔
      s = s' ∧ e = e' ∧ d = d' ∧ p = p') ∧
    ((NewVideoGrant r).serialized = (NewVideoGrant r').serialized ↔ r = r') ∧
    ((NewConversationGrant r).serialized = (NewConversationGrant r').serialized ↔ r = r') ∧
    (∀ j, (NewVoiceGrant a pc ep i m).serialized = some j →
      (NewVoiceGrant a' pc' ep' i' m').serialized = some j →
      a = a' ∧ pc = pc' ∧ ep = ep' ∧ i = i') := by
  have vs := toValidUTF8_of_valid s (hv s (by simp))
  have ve := toValidUTF8_of_valid e (hv e (by simp))
  have vd := toValidUTF8_of_valid d (hv d (by simp))
  have vp := toValidUTF8_of_valid p (hv p (by simp))
  have vs' := toValidUTF8_of_valid s' (hv s' (by simp))
  have ve' := toValidUTF8_of_valid e' (hv e' (by simp))
  have vd' := toValidUTF8_of_valid d' (hv d' (by simp))
  have vp' := toValidUTF8_of_valid p' (hv p' (by simp))
  have vr := toValidUTF8_of_valid r (hv r (by simp))
  have vr' := toValidUTF8_of_valid r' (hv r' (by simp))
  refine ⟨⟨?_, ?_⟩, ⟨?_, ?_⟩, ⟨?_, ?_⟩, ⟨?_, ?_⟩, ?_⟩
  · intro h
    rw [chat_serialized_keep, chat_serialized_keep, vs, ve, vd, vp, vs', ve', vd', vp'] at h
    exact flat_members_inj s e d p s' e' d' p' (by simpa using h)
  · rintro ⟨rfl, rfl, rfl, rfl⟩
    rfl
  · intro h
    rw [ipMessaging_serialized_keep, ipMessaging_serialized_keep, vs, ve, vd, vp, vs', ve',
      vd', vp'] at h
    exact flat_members_inj s e d p s' e' d' p' (by simpa using h)
  · rintro ⟨rfl, rfl, rfl, rfl⟩
    rfl
  · intro h
    rw [video_serialized_keep, video_serialized_keep, vr, vr'] at h
    by_cases h1 : r = [] <;> by_cases h2 : r' = [] <;> simp_all
  · rintro rfl
    rfl
  · intro h
    rw [conversation_serialized_keep, conversation_serialized_keep, vr, vr'] at h
    by_cases h1 : r = [] <;> by_cases h2 : r' = [] <;> simp_all
  · rintro rfl
    rfl
  · intro j h1 h2
    exact voice_serialized_inj a pc ep a' pc' ep' i i' m m' j (hv a (by simp))
      (hv pc (by simp)) (hv ep (by simp)) (hv a' (by simp)) (hv pc' (by simp))
      (hv ep' (by simp)) h1 h2

/-- C12 at valid strings, with two voice grants that differ only in the
parameter map, nil against empty: their payloads exist and are equal, and the
four other arguments agree. -/
theorem payload_determines_arguments_witness :
    (∀ x ∈ [utf8 "IS1", [], [], utf8 "CR1", utf8 "IS1", [], [], utf8 "CR1", utf8 "room-42",
        utf8 "room-42", utf8 "AP123", utf8 "CR1", utf8 "dev-1", utf8 "AP123", utf8 "CR1",
        utf8 "dev-1"], ValidString x = true) ∧
    (NewVoiceGrant (utf8 "AP123") (utf8 "CR1") (utf8 "dev-1") true none).serialized =
      some (.obj
        [ ("incoming", .obj [("allow", .bool true)]),
          ("outgoing", .obj [("application_sid", .str (utf8 "AP123"))]),
          ("push_credential_sid", .str (utf8 "CR1")),
          ("endpoint_id", .str (utf8 "dev-1")) ]) ∧
    (NewVoiceGrant (utf8 "AP123") (utf8 "CR1") (utf8 "dev-1") true (some [])).serialized =
      some (.obj
        [ ("incoming", .obj [("allow", .bool true)]),
          ("outgoing", .obj [("application_sid", .str (utf8 "AP123"))]),
          ("push_credential_sid", .str (utf8 "CR1")),
          ("endpoint_id", .str (utf8 "dev-1")) ]) ∧
    (utf8 "AP123" = utf8 "AP123" ∧ utf8 "CR1" = utf8 "CR1" ∧ utf8 "dev-1" = utf8 "dev-1" ∧
      true = true) :=
  ⟨by decide, rfl, rfl,
    (payload_determines_arguments (utf8 "IS1") [] [] (utf8 "CR1") (utf8 "IS1") [] []
      (utf8 "CR1") (utf8 "room-42") (utf8 "room-42") (utf8 "AP123") (utf8 "CR1")
      (utf8 "dev-1") (utf8 "AP123") (utf8 "CR1") (utf8 "dev-1") true true none (some [])
      (by decide)).2.2.2.2 _ rfl rfl⟩

/-- C12 as stated fails: the video grants built from "\xff" and from "\xfe",
two different one-byte strings, serialize to the same payload, `room` =
U+FFFD, and so does the one built from the valid string U+FFFD; likewise the
chat grants and the voice grants built from "\xff" and "\xfe".  And two voice
grants whose parameter maps hold a channel both have no payload, so their
results are the same error although their ApplicationSids differ. -/
theorem distinct_strings_same_payload :
    ([0xFF] : GoString) ≠ [0xFE] ∧ ([0xFF] : GoString) ≠ [0xEF, 0xBF, 0xBD] ∧
    (NewVideoGrant [0xFF]).serialized = (NewVideoGrant [0xFE]).serialized ∧
    (NewVideoGrant [0xFF]).serialized = (NewVideoGrant [0xEF, 0xBF, 0xBD]).serialized ∧
    (NewChatGrant [0xFF] [] [] []).serialized = (NewChatGrant [0xFE] [] [] []).serialized ∧
    ((NewVoiceGrant [0xFF] [] [] false none).serialized =
        some (.obj
          [ ("incoming", .obj []),
            ("outgoing", .obj [("application_sid", .str [0xEF, 0xBF, 0xBD])]) ]) ∧
      (NewVoiceGrant [0xFE] [] [] false none).serialized =
        some (.obj
          [ ("incoming", .obj []),
            ("outgoing", .obj [("application_sid", .str [0xEF, 0xBF, 0xBD])]) ])) ∧
    (utf8 "AP1" ≠ utf8 "AP2" ∧
      (NewVoiceGrant (utf8 "AP1") [] [] false (some [("k", .iface .chan)])).serialized =
        (NewVoiceGrant (utf8 "AP2") [] [] false (some [("k", .iface .chan)])).serialized) :=
  ⟨by decide, by decide, rfl, rfl, rfl, ⟨rfl, rfl⟩, by decide, rfl⟩


end TwilioGo
